import Mathlib

/-!
Verification of the op-ts Optional/Result monad and its pattern-matching
engine, as implemented in src/src (optional.ts, result.ts, match.ts,
block.ts, error.ts).

Shallow embedding notes.

* JavaScript runtime values are modelled by `JSVal`.  An object carries the
  list of class names it is an instance of (its own class followed by the
  superclasses, so `instanceof C` is membership) together with its own
  enumerable fields in insertion order (the order `Object.keys` yields).
  Error classes made with `ExtendRuntimeError` (error.ts 31-45) extend
  `RuntimeError`, which deliberately does NOT extend `Error` (error.ts 1-9),
  so such an instance satisfies `instanceof RuntimeError` but not
  `instanceof Error`.  `NullError` and `ValueMovedError` in
  src/src/optional.ts 3-11 extend `Error`; `NoDefaultCaseError` in
  src/src/match.ts 115-118 extends `ExtendRuntimeError(...)`.

* A settled promise is `Except JSVal JSVal`: `.error e` is a rejection with
  reason `e`, `.ok v` a fulfilment.  Every promise a claim touches settles,
  and each Optional resolves its backing promise at most once, so the
  settled-state model is adequate.

* Strict equality `===` on two distinct object literals is reference
  inequality; all object conditions and values in this development are
  separate literals, so `strictEq` returns `false` on objects.

* `deepEqual` (the fast-deep-equal import) is structural equality; at every
  input used here the compared values are primitives or `undefined`, where
  fast-deep-equal coincides with structural equality.
-/

namespace OpTs

inductive JSVal where
  | undef : JSVal
  | null : JSVal
  | num : Int → JSVal
  | str : String → JSVal
  | bool : Bool → JSVal
  /-- An object: the classes it is an instance of, then its own fields in
  insertion order. A plain object literal has an empty class list. -/
  | obj : List String → List (String × JSVal) → JSVal

/-- JS `value == null`, true exactly for `null` and `undefined`. -/
def isNullish : JSVal → Bool
  | .undef => true
  | .null => true
  | _ => false

/-- JS `typeof value === "object"` (true for `null` and for objects). -/
def typeofObject : JSVal → Bool
  | .null => true
  | .obj _ _ => true
  | _ => false

/-- `value != null && typeof value === "object"`: a non-null object. -/
def isNonNullObject : JSVal → Bool
  | .obj _ _ => true
  | _ => false

/-- JS `value instanceof C` for a class named `c`: membership in the
value's class chain. -/
def instanceOf (v : JSVal) (c : String) : Bool :=
  match v with
  | .obj cls _ => cls.contains c
  | _ => false

/-- JS `===` for the values appearing here: value equality on primitives,
reference inequality (false) on distinct object literals. -/
def strictEq : JSVal → JSVal → Bool
  | .undef, .undef => true
  | .null, .null => true
  | .num a, .num b => a == b
  | .str a, .str b => a == b
  | .bool a, .bool b => a == b
  | _, _ => false

-- fast-deep-equal: strict equality on primitives; for two objects, equal
-- constructors and pairwise-equal keys and values.  With field insertion
-- orders aligned (as everywhere in this development) that is structural
-- equality.
mutual

/-- fast-deep-equal (the `deepEqual` import of src/src/match.ts 1). -/
def deepEqual (a b : JSVal) : Bool :=
  match a, b with
  | .undef, .undef => true
  | .null, .null => true
  | .num x, .num y => x == y
  | .str x, .str y => x == y
  | .bool x, .bool y => x == y
  | .obj c1 f1, .obj c2 f2 => c1 == c2 && deepEqualFields f1 f2
  | _, _ => false
termination_by sizeOf a

/-- Field-list comparison for `deepEqual`. -/
def deepEqualFields (fs gs : List (String × JSVal)) : Bool :=
  match fs, gs with
  | [], [] => true
  | (k1, v1) :: r1, (k2, v2) :: r2 =>
    k1 == k2 && deepEqual v1 v2 && deepEqualFields r1 r2
  | _, _ => false
termination_by sizeOf fs

end

/-- `me[key]`: the first binding of `key`, or `undefined` when absent. -/
def lookupField : List (String × JSVal) → String → JSVal
  | [], _ => .undef
  | (k, v) :: rest, key => if k == key then v else lookupField rest key

/-- The `NullError` of src/src/optional.ts 3-6 (extends `Error`). -/
def nullError : JSVal := .obj ["NullError", "Error"] []

/-- The `ValueMovedError` of src/src/optional.ts 8-11 (extends `Error`). -/
def valueMovedError : JSVal := .obj ["ValueMovedError", "Error"] []

/-- The `NoDefaultCaseError` of src/src/match.ts 115-118: it extends
`ExtendRuntimeError(...)`, hence `RuntimeError` but NOT `Error`. -/
def noDefaultCaseError : JSVal := .obj ["NoDefaultCaseError", "RuntimeError"] []

-- `partialCompare` of src/src/match.ts 14-40 together with its key loop
-- (`compareKeys` is the `for (const key of Object.keys(other))` body,
-- lines 22-35).  Note the loop's first branch is `return partialCompare(...)`:
-- on the first key whose two sides are both non-null objects the loop exits
-- with that single recursive comparison, skipping every later key.
mutual

/-- src/src/match.ts 14-40: deep partial comparison of `me` against the
condition `other`. -/
def partialCompare (me other : JSVal) : Bool :=
  match me, other with
  | .null, .null => true         -- me == other, both null
  | .null, .obj _ _ => false     -- me == other, one side null
  | .obj _ _, .null => false
  | .obj _ mf, .obj _ of => compareKeys mf of
  | _, _ => deepEqual me other   -- not both `typeof "object"`
termination_by sizeOf other

/-- The key loop of `partialCompare` (src/src/match.ts 22-35), iterating
over `Object.keys(other)`. -/
def compareKeys (mf : List (String × JSVal)) (ol : List (String × JSVal)) : Bool :=
  match ol with
  | [] => true
  | (key, otherValue) :: rest =>
    let meValue := lookupField mf key
    if isNonNullObject meValue && isNonNullObject otherValue then
      partialCompare meValue otherValue
    else if !(deepEqual meValue otherValue) then false
    else compareKeys mf rest
termination_by sizeOf ol

end

/-- The condition a `matcher` (src/src/match.ts 70-95) closes over:
the catch-all `Otherwise` tag, a `Predicate`, a class (a function value,
dispatched through `instanceof`), or a plain value / deep partial. -/
inductive Condition where
  | otherwiseC : Condition
  | pred : (JSVal → Bool) → Condition
  | classC : String → Condition
  | valC : JSVal → Condition

/-- The `test` closure built by `matcher` (src/src/match.ts 80-94).
`Predicate.test` wraps its function in try/catch (52-61), so it is modelled
as a total boolean function. -/
def testCondition : Condition → JSVal → Bool
  | .otherwiseC, _ => true
  | .pred p, value => p value
  | .classC c, value => instanceOf value c
  | .valC cond, value =>
    strictEq value cond || (typeofObject value && partialCompare value cond)

/-- A settled JavaScript promise: `.error e` rejected with reason `e`,
`.ok v` fulfilled with `v`. -/
def Prom := Except JSVal JSVal

/-- An `_OptionalImpl` instance (src/src/optional.ts 135-305): the backing
promise `value` and the private `moved` flag.  The flag is written only in
`createMoved` (line 213) on the instance being created and never mutated
afterwards — in particular `move` (217-223) does NOT set it on the receiver —
so instances are immutable after construction and the embedding is pure. -/
structure OptionalM where
  value : Prom
  moved : Bool

/-- `_toPromise` of src/src/optional.ts 96-110, applied to an immediate
(non-promise) value: `null`/`undefined` resolve to `undefined`, anything
else resolves to itself. -/
def toPromiseVal (v : JSVal) : Prom :=
  if isNullish v then .ok .undef else .ok v

/-- `_toPromise` of src/src/optional.ts 96-110, applied to a promise: a
rejection passes through, a nullish fulfilment is normalised to
`undefined`. -/
def toPromiseProm (p : Prom) : Prom :=
  match p with
  | .error e => .error e
  | .ok v => if isNullish v then .ok .undef else .ok v

/-- `optional(value)` (src/src/optional.ts 112-115) on an immediate value. -/
def optionalOf (v : JSVal) : OptionalM :=
  { value := toPromiseVal v, moved := false }

/-- `optional(promise)` (src/src/optional.ts 112-115) on a promise. -/
def mkOptional (p : Prom) : OptionalM :=
  { value := toPromiseProm p, moved := false }

/-- `empty()` (src/src/optional.ts 117). -/
def emptyOpt : OptionalM := optionalOf (.undef)

/-- `_OptionalImpl.get` (src/src/optional.ts 171-197).  The `throw
unwrapped` at line 183 happens inside the `try`, so it is caught by the
`catch` at 190-195 and a non-nullish `defaultValue` also wins over a thrown
error value; the trailing `throw new NullError()` at 196 is reached when the
value is nullish and no usable default was given. -/
def OptionalM.get (o : OptionalM) (defaultValue : JSVal) (throwErrors : Bool) : Prom :=
  if o.moved then
    if isNullish defaultValue then .error valueMovedError else .ok defaultValue
  else
    match o.value with
    | .ok unwrapped =>
      if !(isNullish unwrapped) then
        if throwErrors && instanceOf unwrapped "Error" then
          -- `throw unwrapped` lands in the catch block (lines 190-195)
          if !(isNullish defaultValue) then .ok defaultValue else .error unwrapped
        else .ok unwrapped
      else if !(isNullish defaultValue) then .ok defaultValue
      else .error nullError
    | .error e =>
      if !(isNullish defaultValue) then .ok defaultValue else .error e

/-- `_OptionalImpl.unwrap` (src/src/optional.ts 140-147): never raises —
a rejection or a nullish value both collapse to `undefined`. -/
def OptionalM.unwrap (o : OptionalM) : JSVal :=
  match o.value with
  | .ok v => if isNullish v then .undef else v
  | .error _ => (.undef)

/-- `_OptionalImpl.createMoved` (src/src/optional.ts 211-215): a fresh
empty Optional whose `moved` flag is set. -/
def movedOptional : OptionalM :=
  { value := toPromiseVal .undef, moved := true }

/-- An `OptionalTransducerResult<R>` (src/src/optional.ts 13-17) inside a
promise: the promise fulfils with a plain value or an Optional. -/
inductive PromContent where
  | plain : JSVal → PromContent
  | optR : OptionalM → PromContent

/-- An `OptionalTransducerResult<R>` (src/src/optional.ts 13-17): a plain
value, an Optional, or a promise of either. -/
inductive TResult where
  | plain : JSVal → TResult
  | optR : OptionalM → TResult
  | prom : Except JSVal PromContent → TResult

/-- The recursive step of `peel` on a promise's content (src/src/optional.ts
124-126: `const peeled = peel(value); return peeled.get();`). -/
def peelContent : PromContent → OptionalM
  | .plain v => optionalOf v
  | .optR o => mkOptional (o.get .undef false)

/-- `peel` (src/src/optional.ts 119-132): an Optional is drained through
`get()` (no default, `throwErrors` false), a promise is chased recursively,
a plain value is wrapped. -/
def peel : TResult → OptionalM
  | .plain v => optionalOf v
  | .optR o => mkOptional (o.get .undef false)
  | .prom (.error e) => mkOptional (.error e)
  | .prom (.ok c) => mkOptional ((peelContent c).get .undef false)

/-- `_OptionalImpl.map` (src/src/optional.ts 199-209): get (never throwing
errors), feed the mapper, peel its result, drain through `get()`. -/
def OptionalM.map (o : OptionalM) (mapper : JSVal → TResult) (defaultValue : JSVal) :
    OptionalM :=
  mkOptional (match o.get defaultValue false with
    | .error e => .error e
    | .ok value => (peel (mapper value)).get .undef false)

/-- `_OptionalImpl.coalesce` (src/src/optional.ts 160-169): `unwrap` never
rejects, so the continuation always runs; a present value passes through,
an absent one is replaced by the peeled substitute. -/
def OptionalM.coalesce (o : OptionalM) (fn : Unit → TResult) : OptionalM :=
  mkOptional (
    let value := o.unwrap
    if !(isNullish value) then .ok value
    else (peel (fn ())).get .undef false)

/-- `_OptionalImpl.move` (src/src/optional.ts 217-223).  An already-moved
receiver makes the method `throw new ValueMovedError()` synchronously
(line 219); otherwise `this.map(into)` runs for its side effect and a fresh
moved Optional is returned.  The list records the values passed to `into`
(`map`'s mapper runs exactly when `this.get(undefined, false)` fulfils);
the receiver's own `moved` flag is never written. -/
def OptionalM.move (o : OptionalM) : Except JSVal (OptionalM × List JSVal) :=
  if o.moved then .error valueMovedError
  else
    .ok (movedOptional,
      match o.get .undef false with
      | .ok v => [v]
      | .error _ => [])

/-- `_OptionalImpl.moveIfExists` (src/src/optional.ts 225-231): on a moved
receiver, return a fresh moved Optional without raising and without touching
`into`; otherwise `this.forEach(into)` (which swallows failures) runs `into`
exactly when `this.get(undefined, false)` fulfils. -/
def OptionalM.moveIfExists (o : OptionalM) : OptionalM × List JSVal :=
  if o.moved then (movedOptional, [])
  else
    (movedOptional,
      match o.get .undef false with
      | .ok v => [v]
      | .error _ => [])

/-- A `Matcher<T, R>` (src/src/match.ts 42-45): the `test` closure together
with the handler `fun`.  The handler is embedded as `fn` (`fun` is a Lean
keyword) and may throw, hence the `Except`. -/
structure Matcher (ρ : Type) where
  test : JSVal → Bool
  fn : JSVal → Except JSVal ρ

/-- `matcher(condition, fun)` (src/src/match.ts 70-95), also `when`
(97-100), which forwards to it. -/
def matcher (cond : Condition) (fn : JSVal → Except JSVal ρ) : Matcher ρ :=
  { test := testCondition cond, fn := fn }

/-- `otherwise(fun)` (src/src/match.ts 112-113). -/
def otherwiseM (fn : JSVal → Except JSVal ρ) : Matcher ρ :=
  matcher .otherwiseC fn

/-- `caseMatch` (src/src/match.ts 161-172): walk the matchers in argument
order (`m != null` skips the omitted trailing arguments, which the list
model drops), fire the first whose `test` accepts the value; with no match,
return `defaultValue` when it is not `undefined` (`none` here), else throw
`NoDefaultCaseError`. -/
def caseMatch (ms : List (Matcher ρ)) (value : JSVal) (defaultValue : Option ρ) :
    Except JSVal ρ :=
  match ms with
  | [] =>
    match defaultValue with
    | some d => .ok d
    | none => .error noDefaultCaseError
  | m :: rest =>
    if m.test value then m.fn value else caseMatch rest value defaultValue

/-- The dispatcher `match(...)` returns, on an immediate (non-promise)
value (src/src/match.ts 191-201): run `caseMatch`; if it threw a
`NoDefaultCaseError`, re-run every matcher against `undefined`; any other
thrown value propagates.  (The promise branch, lines 175-190, is not used
by any claim: `_OptionalImpl.match` always dispatches the already-awaited
`unwrap` result.) -/
def valueMatch (ms : List (Matcher ρ)) (value : JSVal) (defaultValue : Option ρ) :
    Except JSVal ρ :=
  match caseMatch ms value defaultValue with
  | .ok r => .ok r
  | .error e =>
    if instanceOf e "NoDefaultCaseError" then caseMatch ms .undef defaultValue
    else .error e

/-- `_OptionalImpl.match` (src/src/optional.ts 256-304): dispatch the
safely-unwrapped value through the dispatcher with NO default, peel the
matched result and drain it through `get()`; a thrown error (including the
dispatcher's own `NoDefaultCaseError`) rejects the new Optional's backing
promise. -/
def OptionalM.matchOpt (o : OptionalM) (ms : List (Matcher TResult)) : OptionalM :=
  mkOptional (
    match valueMatch ms o.unwrap none with
    | .error e => .error e
    | .ok matched => (peel matched).get .undef false)

/-- `result(value)` (src/src/result.ts 51-56) on an immediate value:
`new _ResultImpl(toPromise(value))`.  `ok` (58-60) and `err` (62-63) both
forward here.  Note `_toPromise` RESOLVES with an error object — it never
rejects for a non-promise argument. -/
def resultOf (v : JSVal) : OptionalM := optionalOf v

/-- `_ResultImpl.get` (src/src/result.ts 84-89): the base `get` with
`throwErrors` defaulted to `true` ("throw by default"). -/
def resultGet (o : OptionalM) (defaultValue : JSVal) : Prom :=
  o.get defaultValue true

/-- `whenOk(fun)` (src/src/result.ts 71-72, also the `_ResultImpl.whenOk`
method 91-95): a predicate matcher firing when the value is NOT an
instance of `RuntimeError`. -/
def whenOkM (fn : JSVal → Except JSVal ρ) : Matcher ρ :=
  matcher (.pred fun v => !(instanceOf v "RuntimeError")) fn

/-- `whenErr(fun)` (src/src/result.ts 74-77, also the `_ResultImpl.whenErr`
method 128-132): a predicate matcher firing when the value IS an instance
of `RuntimeError`. -/
def whenErrM (fn : JSVal → Except JSVal ρ) : Matcher ρ :=
  matcher (.pred fun v => instanceOf v "RuntimeError") fn

/-- `_ResultImpl.ok` (src/src/result.ts 97-104): match `whenOk(fun)`
against an `otherwise` that rethrows the value. -/
def resultOk (o : OptionalM) (fn : JSVal → Except JSVal TResult) : OptionalM :=
  o.matchOpt [whenOkM fn, otherwiseM (fun v => .error v)]

/-- `_ResultImpl.toOptional` (src/src/result.ts 163-168): the Ok path
passes the value through, the Err path substitutes
`optional(defaultValue)`. -/
def toOptionalR (o : OptionalM) (defaultValue : JSVal) : OptionalM :=
  o.matchOpt
    [whenOkM (fun v => .ok (.plain v)),
     whenErrM (fun _ => .ok (.optR (optionalOf defaultValue)))]

/-- An argument to `block`'s `just` operator (src/src/block.ts 37-51):
`isResult` (an `instanceof _ResultImpl` check, src/src/result.ts 41-49) and
`isOptional` (src/src/optional.ts 78-94) dispatch on the runtime class, so
the constructor records which class the argument is. -/
inductive JustArg where
  | resArg : OptionalM → JustArg
  | optArg : OptionalM → JustArg
  | raw : JSVal → JustArg

/-- `resultJust` (src/src/block.ts 20-30): extract the error through
`res.match(res.whenErr((err) => err))`; a present error aborts with
`NullError` (ignoring any default), otherwise the Ok value is drained
through `res.ok((okValue) => okValue).get(defaultValue)`. -/
def resultJust (res : OptionalM) (defaultValue : JSVal) : Except JSVal JSVal :=
  let optError := res.matchOpt [whenErrM (fun e => .ok (.plain e))]
  if !(isNullish optError.unwrap) then .error nullError
  else (resultOk res (fun v => .ok (.plain v))).get defaultValue false

/-- The `just` operator handed to the executor (src/src/block.ts 37-51):
a Result goes through `resultJust`, an Optional through its `get`, and a
raw value aborts with `NullError` exactly when nullish (the raw branch
never consults the default). -/
def justFn : JustArg → JSVal → Except JSVal JSVal
  | .resArg r, d => resultJust r d
  | .optArg o, d => o.get d false
  | .raw v, _ => if isNullish v then .error nullError else .ok v

/-- What the executor returns to `block` (src/src/block.ts 53-61):
a Result (converted through `toOptional()`), an Optional (passed through),
or a raw value (wrapped). -/
inductive BlockRet where
  | retRes : OptionalM → BlockRet
  | retOpt : OptionalM → BlockRet
  | retRaw : JSVal → BlockRet

/-- `block(executor)` (src/src/block.ts 11-69).  The executor receives the
`just` operator and either returns a value or throws; the catch at 62-68
converts a thrown `NullError` — `just`'s abort signal — into `empty()` and
rethrows anything else. -/
def block
    (executor : (JustArg → JSVal → Except JSVal JSVal) → Except JSVal BlockRet) :
    Except JSVal OptionalM :=
  match executor justFn with
  | .ok (.retRes r) => .ok (toOptionalR r .undef)
  | .ok (.retOpt o) => .ok o
  | .ok (.retRaw v) => .ok (optionalOf v)
  | .error e => if instanceOf e "NullError" then .ok emptyOpt else .error e

/-! Concrete inputs used by the theorems below. -/

/-- An error built with `ExtendRuntimeError` (error.ts 31-45), as every
legal `E` of `Result<T, E extends RuntimeError>` is: an instance of its own
class and of `RuntimeError`, but NOT of `Error`. -/
def someError : JSVal := .obj ["SomeError", "RuntimeError"] []

/-- A hypothetical error class extending the built-in `Error` (which the
`Result` type parameter constraint `E extends RuntimeError` rules out). -/
def someJsError : JSVal := .obj ["SomeJsError", "Error"] []

/-- An error of a class extending `Error` that is not `NullError`. -/
def boomError : JSVal := .obj ["BoomError", "Error"] []

/-- An instance of a subclass `C2` of `C1`: `instanceof` accepts both. -/
def c2inst : JSVal := .obj ["C2", "C1"] [("num", .num 3)]

/-- Value `{a: {x: 1}, b: {y: 2}}`. -/
def c3me : JSVal :=
  .obj [] [("a", .obj [] [("x", .num 1)]), ("b", .obj [] [("y", .num 2)])]

/-- Condition `{a: {x: 1}, b: {y: 3}}`: sibling key `b` disagrees with
`c3me`. -/
def c3cond : JSVal :=
  .obj [] [("a", .obj [] [("x", .num 1)]), ("b", .obj [] [("y", .num 3)])]

/-- The `match` of an Optional holding `2` against the single rule
`when(1, ...)`: no rule fires, no default is configured. -/
def c4opt : OptionalM := optionalOf (.num 2)

/-- The single matcher `when(1, (v) => v)`. -/
def c4ms : List (Matcher TResult) :=
  [matcher (.valC (.num 1)) (fun v => .ok (.plain v))]

/-- Condition `{b: {c: 1}}`. -/
def c8cond : JSVal := .obj [] [("b", .obj [] [("c", .num 1)])]

/-- Value `{a: 3, b: {c: 1}}`. -/
def c8v1 : JSVal := .obj [] [("a", .num 3), ("b", .obj [] [("c", .num 1)])]

/-- Value `{a: 3, b: {c: 1, d: 0}}`: an extra key `d` inside the nested
object under the matched path. -/
def c8v2 : JSVal :=
  .obj [] [("a", .num 3), ("b", .obj [] [("c", .num 1), ("d", .num 0)])]

/-- Condition `{b: {c: 1, d: 0}}`: the extra key sits in the CONDITION. -/
def c8cond2 : JSVal :=
  .obj [] [("b", .obj [] [("c", .num 1), ("d", .num 0)])]

/-- `when(C3, ...)`, whose test rejects a `C2` instance. -/
def mC3w : Matcher JSVal := matcher (.classC "C3") (fun _ => .ok (.str "C"))

/-- `when(C1, () => "A")`: the supertype rule, listed first. -/
def mAw : Matcher JSVal := matcher (.classC "C1") (fun _ => .ok (.str "A"))

/-- `when(C2, () => "B")`: the subtype rule, listed after. -/
def mBw : Matcher JSVal := matcher (.classC "C2") (fun _ => .ok (.str "B"))

/-- A matcher whose test accepts `undefined` (and `null`) and whose handler
echoes its argument, to observe which value it was fired with. -/
def mUndefW : Matcher JSVal := matcher (.pred isNullish) (fun v => .ok v)

/-- The executor `async (just) => just(empty())`: it aborts through `just`
on an empty Optional. -/
def exec0 : (JustArg → JSVal → Except JSVal JSVal) → Except JSVal BlockRet :=
  fun j =>
    match j (.optArg emptyOpt) .undef with
    | .ok v => .ok (.retRaw v)
    | .error e => .error e

/-- An executor that throws an error unrelated to `just`'s abort signal. -/
def execBoom : (JustArg → JSVal → Except JSVal JSVal) → Except JSVal BlockRet :=
  fun _ => .error boomError

/-! Helper lemmas about the ordered matcher walk, shared by the claims on
the Pattern Matcher. -/

/-- `caseMatch` fires the first matcher whose test accepts the value: the
matchers before it are walked and rejected, the ones after are never
consulted. -/
theorem caseMatch_append_fires {ρ : Type} (ms1 : List (Matcher ρ)) (m : Matcher ρ)
    (ms2 : List (Matcher ρ)) (v : JSVal) (d : Option ρ)
    (h1 : ∀ m' ∈ ms1, m'.test v = false) (h2 : m.test v = true) :
    caseMatch (ms1 ++ m :: ms2) v d = m.fn v := by
  induction ms1 with
  | nil => simp [caseMatch, h2]
  | cons hd tl ih =>
    have hhd : hd.test v = false := h1 hd (by simp)
    simp [caseMatch, hhd]
    exact ih (fun m' hm' => h1 m' (by simp [hm']))

/-- With every test rejecting the value and no default, `caseMatch` throws
`NoDefaultCaseError`. -/
theorem caseMatch_all_false_none {ρ : Type} (ms : List (Matcher ρ)) (v : JSVal)
    (h : ∀ m ∈ ms, m.test v = false) :
    caseMatch ms v none = .error noDefaultCaseError := by
  induction ms with
  | nil => rfl
  | cons hd tl ih =>
    have hhd : hd.test v = false := h hd (by simp)
    simp [caseMatch, hhd]
    exact ih (fun m hm => h m (by simp [hm]))

/-- With every test rejecting the value, a supplied default is returned. -/
theorem caseMatch_all_false_some {ρ : Type} (ms : List (Matcher ρ)) (v : JSVal)
    (d : ρ) (h : ∀ m ∈ ms, m.test v = false) :
    caseMatch ms v (some d) = .ok d := by
  induction ms with
  | nil => rfl
  | cons hd tl ih =>
    have hhd : hd.test v = false := h hd (by simp)
    simp [caseMatch, hhd]
    exact ih (fun m hm => h m (by simp [hm]))

/-! The claims. -/

/-- C1: the claim says `ok(1).get()` resolves to `1` (true), that
`err(new SomeError()).get()` rejects with the error, and that
`err(new SomeError()).get(2)` resolves to `2`.  Evaluating
`_ResultImpl.get` (src/src/result.ts 84-89, `throwErrors` defaulted true)
at these inputs: the ok case resolves to `1`, but BOTH error cases resolve
to the error object itself, because every legal `E extends RuntimeError` is
not an `instanceof Error` and the `throwErrors` check at
src/src/optional.ts 182 never fires — the value counts as present, so the
supplied default `2` is ignored as well.  The last conjunct shows the
rejection the claim describes does happen for an error that extends the
built-in `Error`, which the type constraint excludes. -/
theorem resultGet_error_value_eval :
    resultGet (resultOf (.num 1)) .undef = .ok (.num 1)
    ∧ resultGet (resultOf someError) .undef = .ok someError
    ∧ resultGet (resultOf someError) (.num 2) = .ok someError
    ∧ resultGet (resultOf someJsError) .undef = .error someJsError := by
  exact ⟨by rfl, by rfl, by rfl, by rfl⟩

/-- C2 counterexample: `a = optional(3)` moved through `a.move(fn)` — the
move succeeds and consumes the value (`fn` receives `3`), yet the original
`a` still resolves `get()` to `3` rather than raising `ValueMovedError`:
`move` (src/src/optional.ts 217-223) never writes the receiver's `moved`
flag (the flag is written only in `createMoved`, line 213), so the claim's
"the original a is permanently moved" is false. -/
theorem move_origin_still_readable_counterexample :
    (optionalOf (.num 3)).move = .ok (movedOptional, [.num 3])
    ∧ (optionalOf (.num 3)).get .undef false = .ok (.num 3)
    ∧ (Except.ok (.num 3) : Prom) ≠ .error valueMovedError := by
  exact ⟨by rfl, by rfl, by simp⟩

/-- C2 amended: after `b = a.move(fn)` on a not-yet-moved filled Optional
`a`, the returned `b` is permanently moved — `b.get()` without a default
raises `ValueMovedError` and `b.move(fn2)` raises `ValueMovedError` without
invoking `fn2` — and `fn` is invoked exactly once with the value; but the
ORIGINAL `a` is not marked moved: its `get()` still resolves to the
value. -/
theorem move_marks_only_successor (o : OptionalM) (v : JSVal)
    (h1 : o.moved = false) (h2 : o.value = .ok v) (h3 : isNullish v = false) :
    o.move = .ok (movedOptional, [v])
    ∧ movedOptional.get .undef false = .error valueMovedError
    ∧ movedOptional.move = .error valueMovedError
    ∧ o.get .undef false = .ok v := by
  refine ⟨?_, by rfl, by rfl, ?_⟩ <;>
    simp [OptionalM.move, OptionalM.get, h1, h2, h3]

/-- C2 witness: the amended statement at `optional(3)`. -/
theorem move_marks_only_successor_witness :
    ((optionalOf (.num 3)).moved = false
      ∧ (optionalOf (.num 3)).value = .ok (.num 3)
      ∧ isNullish (.num 3) = false)
    ∧ ((optionalOf (.num 3)).move = .ok (movedOptional, [.num 3])
      ∧ movedOptional.get .undef false = .error valueMovedError
      ∧ movedOptional.move = .error valueMovedError
      ∧ (optionalOf (.num 3)).get .undef false = .ok (.num 3)) :=
  ⟨⟨rfl, rfl, rfl⟩, move_marks_only_successor (optionalOf (.num 3)) (.num 3) rfl rfl rfl⟩

/-- C3: the claim (and the repository's own doc comment on
`partialCompare`) says every key present in the condition must
deep-partially match, ANDed across sibling keys.  Evaluating
`partialCompare` (src/src/match.ts 14-40) at value `{a: {x: 1}, b: {y: 2}}`
and condition `{a: {x: 1}, b: {y: 3}}`: the structural matcher's test
SUCCEEDS although the sibling comparison for key `b` fails, because the key
loop's first branch is `return partialCompare(meValue, otherValue)` (line
31) — on the first key whose two sides are both objects the loop exits
with that single comparison and key `b` is never examined. -/
theorem partialCompare_skips_second_nested_sibling :
    testCondition (.valC c3cond) c3me = true
    ∧ partialCompare (.obj [] [("y", .num 2)]) (.obj [] [("y", .num 3)]) = false := by
  constructor
  · simp [c3me, c3cond, testCondition, strictEq, typeofObject, partialCompare,
      compareKeys, lookupField, isNonNullObject, deepEqual, deepEqualFields]
  · simp [partialCompare, compareKeys, lookupField, isNonNullObject, deepEqual,
      deepEqualFields]

/-- C4 counterexample: `optional(2).match(when(1, ...))` — no rule fires
and no default is configured.  The resulting Optional's `unwrap()` is
`undefined`, but `get()` without a default raises `NoDefaultCaseError`,
not `NullError`: the dispatcher's throw rejects the backing promise
(src/src/optional.ts 298-303) and `get` rethrows that rejection
(lines 190-195), so the claim's "raises NullError" is false. -/
theorem matchOpt_no_rule_get_not_nullError_counterexample :
    (c4opt.matchOpt c4ms).unwrap = .undef
    ∧ (c4opt.matchOpt c4ms).get .undef false = .error noDefaultCaseError
    ∧ noDefaultCaseError ≠ nullError := by
  exact ⟨by rfl, by rfl, by simp [noDefaultCaseError, nullError]⟩

/-- C4 amended: when `Optional.match` dispatches a value no matcher accepts
(on both passes) and no default is configured, the resulting Optional is
FAILED with `NoDefaultCaseError` rather than absent: `unwrap()` still
yields `undefined` (unwrap swallows the rejection), but `get()` without a
default raises `NoDefaultCaseError`, not `NullError`. -/
theorem matchOpt_no_rule_carries_noDefaultCaseError (o : OptionalM)
    (ms : List (Matcher TResult))
    (h : valueMatch ms o.unwrap none = .error noDefaultCaseError) :
    (o.matchOpt ms).unwrap = .undef
    ∧ (o.matchOpt ms).get .undef false = .error noDefaultCaseError := by
  have hm : o.matchOpt ms = mkOptional (.error noDefaultCaseError) := by
    simp [OptionalM.matchOpt, h]
  rw [hm]
  exact ⟨by rfl, by rfl⟩

/-- C4 witness: the amended statement at `optional(2).match(when(1, ...))`. -/
theorem matchOpt_no_rule_carries_noDefaultCaseError_witness :
    valueMatch c4ms (OptionalM.unwrap c4opt) none = .error noDefaultCaseError
    ∧ ((c4opt.matchOpt c4ms).unwrap = .undef
      ∧ (c4opt.matchOpt c4ms).get .undef false = .error noDefaultCaseError) :=
  ⟨rfl, matchOpt_no_rule_carries_noDefaultCaseError c4opt c4ms rfl⟩

/-- C5: an abort triggered by `just` inside `block` — `just` on an empty
Optional, on an error-path Result, or on a nullish raw value, with no
default — throws the abort signal (`NullError`), and `block`'s catch
(src/src/block.ts 62-68) turns exactly that signal into an EMPTY Optional
as the block's overall result, while an executor error that is not the
abort signal propagates out of `block` unchanged. -/
theorem block_abort_empty_other_errors_propagate
    (exec : (JustArg → JSVal → Except JSVal JSVal) → Except JSVal BlockRet)
    (e : JSVal) :
    (justFn (.optArg emptyOpt) .undef = .error nullError
      ∧ justFn (.resArg (resultOf someError)) .undef = .error nullError
      ∧ justFn (.raw .null) .undef = .error nullError)
    ∧ (exec justFn = .error e →
        (instanceOf e "NullError" = true → block exec = .ok emptyOpt)
        ∧ (instanceOf e "NullError" = false → block exec = .error e)) := by
  refine ⟨⟨by rfl, by rfl, by rfl⟩, ?_⟩
  intro h
  constructor <;> intro hi <;> simp [block, h, hi]

/-- C5 witness: an executor aborting through `just(empty())` makes the
block resolve to an empty Optional, and an executor throwing an unrelated
error makes the block propagate it. -/
theorem block_abort_empty_witness :
    exec0 justFn = .error nullError
    ∧ block exec0 = .ok emptyOpt
    ∧ block execBoom = .error boomError :=
  ⟨rfl,
    ((block_abort_empty_other_errors_propagate exec0 nullError).2 (by rfl)).1 (by rfl),
    ((block_abort_empty_other_errors_propagate execBoom boomError).2 (by rfl)).2 (by rfl)⟩

/-- C6 counterexample: `empty().coalesce(f1).coalesce(f2)` where `f1`
substitutes an absent value and `f2` substitutes `5`.  The claim says the
second coalesce does NOT run its substitute, yet the chain's `get()`
resolves to `5` — a value that can only come from running `f2`.  The first
link indeed carries a `NullError` rejection (first conjunct), which the
second coalesce's `unwrap` reads as absence, re-triggering a rescue. -/
theorem coalesce_second_substitute_used_counterexample :
    (emptyOpt.coalesce (fun _ => .plain .undef)).value = .error nullError
    ∧ ((emptyOpt.coalesce (fun _ => .plain .undef)).coalesce
        (fun _ => .plain (.num 5))).get .undef false = .ok (.num 5) := by
  exact ⟨by rfl, by rfl⟩

/-- C6 amended: in a coalesce chain starting from an absent Optional, the
first coalesce whose substitute produces a PRESENT value wins; when the
first coalesce's substitute is itself absent, the first link carries a
`NullError` rejection which the next coalesce's `unwrap` collapses back to
absence, so the next coalesce DOES run its substitute, and the chain's
result is exactly that substitute's peeled value. -/
theorem coalesce_chain_second_rescues (o : OptionalM) (f1 f2 : Unit → TResult)
    (h1 : o.unwrap = .undef) (h2 : f1 () = .plain .undef) :
    (o.coalesce f1).value = .error nullError
    ∧ (o.coalesce f1).coalesce f2 = mkOptional ((peel (f2 ())).get .undef false) := by
  have hc1 : o.coalesce f1 = mkOptional (.error nullError) := by
    simp [OptionalM.coalesce, h1, h2, isNullish, peel, optionalOf, OptionalM.get,
      toPromiseVal]
  refine ⟨by rw [hc1]; rfl, ?_⟩
  rw [hc1]
  rfl

/-- C6 witness: the amended statement at `empty()`, `f1` substituting an
absent value and `f2` substituting `5`. -/
theorem coalesce_chain_second_rescues_witness :
    (OptionalM.unwrap emptyOpt = .undef
      ∧ (fun _ : Unit => TResult.plain .undef) () = .plain .undef)
    ∧ ((emptyOpt.coalesce (fun _ => .plain .undef)).value = .error nullError
      ∧ (emptyOpt.coalesce (fun _ => .plain .undef)).coalesce
          (fun _ => .plain (.num 5))
        = mkOptional ((peel ((fun _ : Unit => TResult.plain (.num 5)) ())).get
            .undef false)) :=
  ⟨⟨rfl, rfl⟩,
    coalesce_chain_second_rescues emptyOpt (fun _ => .plain .undef)
      (fun _ => .plain (.num 5)) rfl rfl⟩

/-- C7: the claim (and the repository's own test, optional-test.ts 125,
which expects `a.move(gobbler).get()` to produce a REJECTED promise) says
`move` on an already-moved Optional is a no-op returning another moved
Optional without raising.  Evaluating the code: `move`
(src/src/optional.ts 217-223) THROWS `ValueMovedError` synchronously on a
moved receiver, so the consumer is never invoked but no Optional is
returned either; the claimed no-op behaviour is what `moveIfExists`
(225-231) implements. -/
theorem move_on_moved_raises_eval :
    movedOptional.move = .error valueMovedError
    ∧ movedOptional.moveIfExists = (movedOptional, []) := by
  exact ⟨by rfl, by rfl⟩

/-- C8 counterexample: the condition `{b: {c: 1}}` DOES match the value
`{a: 3, b: {c: 1, d: 0}}` — the claim says it does not.  An extra key
inside a nested object of the VALUE is ignored by the deep partial match
(only the condition's keys are walked, src/src/match.ts 22). -/
theorem nested_extra_value_key_still_matches_counterexample :
    testCondition (.valC c8cond) c8v2 = true := by
  simp [c8cond, c8v2, testCondition, strictEq, typeofObject, partialCompare,
    compareKeys, lookupField, isNonNullObject, deepEqual, deepEqualFields]

/-- C8 amended: the condition `{b: {c: 1}}` matches both `{a: 3, b: {c: 1}}`
and `{a: 3, b: {c: 1, d: 0}}` — extra keys in the value, also inside a
nested object under the matched path, are ignored.  What fails is the
reverse situation: the condition `{b: {c: 1, d: 0}}` does NOT match the
value `{a: 3, b: {c: 1}}`, because a key of the condition (`d`) finds no
equal counterpart in the value. -/
theorem partial_match_ignores_extra_value_keys :
    testCondition (.valC c8cond) c8v1 = true
    ∧ testCondition (.valC c8cond) c8v2 = true
    ∧ testCondition (.valC c8cond2) c8v1 = false := by
  refine ⟨?_, ?_, ?_⟩ <;>
    simp [c8cond, c8cond2, c8v1, c8v2, testCondition, strictEq, typeofObject,
      partialCompare, compareKeys, lookupField, isNonNullObject, deepEqual,
      deepEqualFields]

/-- C9: `caseMatch` walks the matchers strictly in list order and returns
the handler result of the FIRST matcher whose test accepts the value; in
particular a `C2` instance (which is also an `instanceof C1`) dispatched
against `[when(C3, ...), when(C1, () => "A"), when(C2, () => "B")]` fires
the `C1` rule and yields `"A"`, not `"B"`. -/
theorem caseMatch_first_match_wins {ρ : Type} (ms1 : List (Matcher ρ))
    (m : Matcher ρ) (ms2 : List (Matcher ρ)) (v : JSVal) (d : Option ρ)
    (h1 : ∀ m' ∈ ms1, m'.test v = false) (h2 : m.test v = true) :
    caseMatch (ms1 ++ m :: ms2) v d = m.fn v
    ∧ caseMatch [mAw, mBw] c2inst none = .ok (.str "A") := by
  exact ⟨caseMatch_append_fires ms1 m ms2 v d h1 h2, by rfl⟩

/-- C9 witness: the ordering statement at the `C2` instance against
`[when(C3, ...), when(C1, () => "A"), when(C2, () => "B")]`. -/
theorem caseMatch_first_match_wins_witness :
    ((∀ m' ∈ [mC3w], m'.test c2inst = false) ∧ mAw.test c2inst = true)
    ∧ (caseMatch ([mC3w] ++ mAw :: [mBw]) c2inst none = mAw.fn c2inst
      ∧ caseMatch [mAw, mBw] c2inst none = .ok (.str "A")) :=
  ⟨⟨fun m' hm' => by
      simp [List.mem_singleton] at hm'
      subst hm'
      rfl,
    rfl⟩,
    caseMatch_first_match_wins [mC3w] mAw [mBw] c2inst none
      (fun m' hm' => by
        simp [List.mem_singleton] at hm'
        subst hm'
        rfl)
      rfl⟩

/-- C10: when a non-promise value matches none of the supplied matchers,
the dispatcher (src/src/match.ts 191-201) re-runs every matcher against
`undefined` before giving up: with no default it equals the `undefined`
pass; a supplied default is returned without a second pass; if no matcher
accepts `undefined` either and no default was supplied,
`NoDefaultCaseError` is raised; and the first matcher accepting `undefined`
fires with `undefined` as its handler argument. -/
theorem valueMatch_second_pass_undefined {ρ : Type} (ms : List (Matcher ρ))
    (v : JSVal) (h : ∀ m ∈ ms, m.test v = false) :
    valueMatch ms v none = caseMatch ms .undef none
    ∧ (∀ d : ρ, valueMatch ms v (some d) = .ok d)
    ∧ ((∀ m ∈ ms, m.test .undef = false) →
        valueMatch ms v none = .error noDefaultCaseError)
    ∧ (∀ ms1 m ms2, ms = ms1 ++ m :: ms2 →
        (∀ m' ∈ ms1, m'.test .undef = false) → m.test .undef = true →
        valueMatch ms v none = m.fn .undef) := by
  have hfirst : caseMatch ms v none = .error noDefaultCaseError :=
    caseMatch_all_false_none ms v h
  have hretry : valueMatch ms v none = caseMatch ms .undef none := by
    simp [valueMatch, hfirst, instanceOf, noDefaultCaseError]
  refine ⟨hretry, ?_, ?_, ?_⟩
  · intro d
    simp [valueMatch, caseMatch_all_false_some ms v d h]
  · intro h2
    rw [hretry]
    exact caseMatch_all_false_none ms .undef h2
  · intro ms1 m ms2 hsplit h2 h3
    rw [hretry, hsplit]
    exact caseMatch_append_fires ms1 m ms2 .undef none h2 h3

/-- C10 witness: dispatching `2` against the single matcher accepting only
nullish values — the first pass rejects `2`, the second pass fires the
matcher with `undefined` as its handler argument. -/
theorem valueMatch_second_pass_undefined_witness :
    (∀ m ∈ [mUndefW], m.test (.num 2) = false)
    ∧ valueMatch [mUndefW] (.num 2) none = .ok .undef :=
  ⟨fun m hm => by
      simp [List.mem_singleton] at hm
      subst hm
      rfl,
    (valueMatch_second_pass_undefined [mUndefW] (.num 2)
        (fun m hm => by
          simp [List.mem_singleton] at hm
          subst hm
          rfl)).2.2.2
      [] mUndefW [] rfl (fun m' hm' => by simp at hm') rfl⟩

end OpTs
